import Mathlib

/-!
Verification of the maurice-chat backend (src/backend/fastapi_voice_server.py,
src/backend/server.py) against its specification.

The Python code is shallowly embedded: the session registry (a Python dict,
insertion-ordered, unique keys) becomes an association list; each handler
becomes a pure function from the registry and the request to the new registry
and an HTTP-level result; calls to external services (Deepgram, Anthropic,
Resend) are parametrised by oracle values describing the outcome of the call,
since the handlers' control flow is all that the code itself determines.
`datetime.now()` is passed in as a `now : Nat` parameter.
-/

/-- A JSON scalar, enough for the endpoints' response dicts. -/
inductive JsonVal where
  | str (s : String)
  | num (n : Nat)
deriving DecidableEq, Repr

namespace VoiceServer

/-- One entry of a session's `conversation_history`:
a Python dict `{"role": ..., "content": ...}`. -/
structure Message where
  role : String
  content : String
deriving DecidableEq, Repr

/-- A session dict as built by `get_or_create_session`:
`{"id", "created_at", "conversation_history", "is_processing"}`. -/
structure Session where
  id : String
  created_at : Nat
  conversation_history : List Message
  is_processing : Bool
deriving DecidableEq, Repr

/-- The module-level `active_sessions: Dict[str, Dict[str, Any]]`,
modelled as an insertion-ordered association list with unique keys
(Python dict semantics). -/
abbrev Registry := List (String × Session)

/-- Python `active_sessions.get(sid)` / `sid in active_sessions`:
first (only) entry with the given key. -/
def lookupSession (r : Registry) (sid : String) : Option Session :=
  (r.find? (fun p => p.1 = sid)).map Prod.snd

/-- Python `active_sessions[sid] = s`: update in place if the key is present,
else append at the end (dicts preserve insertion order). -/
def setSession : Registry → String → Session → Registry
  | [], sid, s => [(sid, s)]
  | (k, v) :: rest, sid, s =>
      if k = sid then (sid, s) :: rest else (k, v) :: setSession rest sid s

/-- Python `del active_sessions[sid]`: drop the entry with the given key. -/
def eraseSession : Registry → String → Registry
  | [], _ => []
  | (k, v) :: rest, sid =>
      if k = sid then rest else (k, v) :: eraseSession rest sid

/-- `get_or_create_session` of fastapi_voice_server.py: if no session with
this id exists, insert a fresh one with empty history and a cleared
processing flag; return the (possibly new) registry together with the
session the handler goes on to use. -/
def get_or_create_session (r : Registry) (session_id : String) (now : Nat) :
    Registry × Session :=
  match lookupSession r session_id with
  | some s => (r, s)
  | none =>
      let s : Session :=
        { id := session_id, created_at := now,
          conversation_history := [], is_processing := false }
      (r ++ [(session_id, s)], s)

/-- Outcome of awaiting one of the helper coroutines: the helper's body may
run its normal branch, may hit its internal `except Exception` branch, or the
await itself may raise past the helper (e.g. cancellation), which is the only
way an exception reaches the caller since each helper catches `Exception`. -/
inductive StepBehavior where
  | succeeds
  | innerError (msg : String)
  | raises (msg : String)
deriving DecidableEq, Repr

/-- `process_audio_to_text`: placeholder transcription; its own
`except Exception` branch returns an apology transcript instead of raising. -/
def process_audio_to_text (o : StepBehavior) : Except String String :=
  match o with
  | .succeeds => .ok "Hello, this is a placeholder transcription"
  | .innerError _ => .ok "Sorry, I couldn't understand that."
  | .raises e => .error e

/-- `generate_ai_response`: placeholder reply echoing the message; its own
`except Exception` branch returns an apology instead of raising. -/
def generate_ai_response (o : StepBehavior) (message : String) :
    Except String String :=
  match o with
  | .succeeds => .ok ("Thank you for saying: " ++ message ++ ". How else can I help you today?")
  | .innerError _ => .ok "I'm sorry, I'm having trouble responding right now."
  | .raises e => .error e

/-- `text_to_speech`: placeholder audio URL; its own `except Exception`
branch returns `None` instead of raising. -/
def text_to_speech (o : StepBehavior) : Except String (Option String) :=
  match o with
  | .succeeds => .ok (some "https://example.com/audio/placeholder.mp3")
  | .innerError _ => .ok none
  | .raises e => .error e

/-- What a FastAPI handler produces: a normal return value, a raised
`HTTPException(status, detail)`, or a propagated unexpected exception. -/
inductive HandlerResult (α : Type) where
  | ok (value : α)
  | httpError (status : Nat) (detail : String)
  | exn (msg : String)
deriving DecidableEq, Repr

/-- Request body of `POST /api/voice/send` (`AudioMessage`). -/
structure AudioMessage where
  audio_data : String
  session_id : String
  format : String
deriving DecidableEq, Repr

/-- Request body of `POST /api/text/send` (`TextMessage`). -/
structure TextMessage where
  message : String
  session_id : String
deriving DecidableEq, Repr

/-- Response model of `POST /api/voice/send` (`VoiceResponse`); `audio_url`
carries the value `text_to_speech` returned, which is `None` on TTS failure. -/
structure VoiceResponse where
  text : String
  audio_url : Option String
  session_id : String
  timestamp : Nat
deriving DecidableEq, Repr

/-- Response dict of `POST /api/text/send`. -/
structure TextResponse where
  response : String
  session_id : String
  timestamp : Nat
deriving DecidableEq, Repr

/-- The `finally:` block of `send_voice_message`:
`session["is_processing"] = False` on the session object the handler holds,
which is the registry's entry. -/
def clearProcessing (r : Registry) (sid : String) : Registry :=
  match lookupSession r sid with
  | some s => setSession r sid { s with is_processing := false }
  | none => r

/-- `session["conversation_history"].extend(msgs)` on the registry's entry. -/
def appendHistory (r : Registry) (sid : String) (msgs : List Message) : Registry :=
  match lookupSession r sid with
  | some s =>
      setSession r sid
        { s with conversation_history := s.conversation_history ++ msgs }
  | none => r

/-- The three awaited steps of one voice exchange. -/
structure VoiceOracle where
  stt : StepBehavior
  llm : StepBehavior
  tts : StepBehavior
deriving DecidableEq, Repr

/-- `POST /api/voice/send` (`send_voice_message`): look the session up
(creating it if absent), raise 429 if it is already processing, else set the
flag, run transcription, reply generation, synthesis, append the user and
assistant turns, and clear the flag in `finally:` on every path. -/
def send_voice_message (r : Registry) (message : AudioMessage)
    (o : VoiceOracle) (now : Nat) : Registry × HandlerResult VoiceResponse :=
  let p := get_or_create_session r message.session_id now
  let r1 := p.1
  let session := p.2
  if session.is_processing then
    (r1, .httpError 429 "Already processing a message")
  else
    let r2 := setSession r1 message.session_id { session with is_processing := true }
    match process_audio_to_text o.stt with
    | .error e => (clearProcessing r2 message.session_id, .exn e)
    | .ok transcribed_text =>
      match generate_ai_response o.llm transcribed_text with
      | .error e => (clearProcessing r2 message.session_id, .exn e)
      | .ok ai_response =>
        match text_to_speech o.tts with
        | .error e => (clearProcessing r2 message.session_id, .exn e)
        | .ok audio_url =>
          let r3 := appendHistory r2 message.session_id
            [{ role := "user", content := transcribed_text },
             { role := "assistant", content := ai_response }]
          (clearProcessing r3 message.session_id,
           .ok { text := ai_response, audio_url := audio_url,
                 session_id := message.session_id, timestamp := now })

/-- `POST /api/text/send` (`send_text_message`): look the session up
(creating it if absent), generate a reply, append both turns. The handler
performs no `is_processing` check and never touches the flag. -/
def send_text_message (r : Registry) (message : TextMessage)
    (o : StepBehavior) (now : Nat) : Registry × HandlerResult TextResponse :=
  let p := get_or_create_session r message.session_id now
  let r1 := p.1
  match generate_ai_response o message.message with
  | .error e => (r1, .exn e)
  | .ok ai_response =>
      let r2 := appendHistory r1 message.session_id
        [{ role := "user", content := message.message },
         { role := "assistant", content := ai_response }]
      (r2, .ok { response := ai_response,
                 session_id := message.session_id, timestamp := now })

/-- Response dict of `GET /api/session/{session_id}`. -/
structure SessionInfo where
  session_id : String
  created_at : Nat
  message_count : Nat
  is_processing : Bool
deriving DecidableEq, Repr

/-- `GET /api/session/{session_id}` (`get_session`): uses
`get_or_create_session`, so it inserts a fresh session for an unknown id. -/
def get_session (r : Registry) (session_id : String) (now : Nat) :
    Registry × SessionInfo :=
  let p := get_or_create_session r session_id now
  (p.1, { session_id := session_id, created_at := p.2.created_at,
          message_count := p.2.conversation_history.length,
          is_processing := p.2.is_processing })

/-- `DELETE /api/session/{session_id}` (`delete_session`): delete the entry
when present; either way answer with a message, never raise. -/
def delete_session (r : Registry) (session_id : String) : Registry × String :=
  if (lookupSession r session_id).isSome then
    (eraseSession r session_id, "Session deleted")
  else
    (r, "Session not found")

/-- `GET /health` of fastapi_voice_server.py: status 200 with
`active_sessions` equal to `len(active_sessions)`. -/
def health_check (r : Registry) : Nat × List (String × JsonVal) :=
  (200,
   [("status", .str "healthy"),
    ("service", .str "maurice-fastapi-voice"),
    ("active_sessions", .num r.length)])

/-- One inbound exchange request for a session: a voice message with its
three step outcomes, or a text message with its generation outcome. -/
inductive ExchangeSpec where
  | voice (audio_data format : String) (o : VoiceOracle)
  | text (message : String) (o : StepBehavior)
deriving DecidableEq, Repr

/-- Whether a step returns (normally or via its internal except branch)
rather than raising past the await. -/
def noRaise : StepBehavior → Bool
  | .raises _ => false
  | _ => true

/-- An exchange completes (appends its turns and returns a response) iff no
step raises; a text exchange only awaits reply generation. -/
def specCompletes : ExchangeSpec → Bool
  | .voice _ _ o => noRaise o.stt && noRaise o.llm && noRaise o.tts
  | .text _ o => noRaise o

/-- Run one exchange request against the registry, keeping the new registry. -/
def stepExchange (r : Registry) (sid : String) (spec : ExchangeSpec)
    (now : Nat) : Registry :=
  match spec with
  | .voice audio_data format o =>
      (send_voice_message r { audio_data := audio_data, session_id := sid, format := format } o now).1
  | .text message o =>
      (send_text_message r { message := message, session_id := sid } o now).1

/-- Run a sequence of exchange requests for one session, in request order. -/
def runExchanges (r : Registry) (sid : String) : List ExchangeSpec → Nat → Registry
  | [], _ => r
  | spec :: rest, now => runExchanges (stepExchange r sid spec now) sid rest now

/-- The conversation history the registry holds for a session
(empty when the session does not exist). -/
def sessionHistory (r : Registry) (sid : String) : List Message :=
  match lookupSession r sid with
  | some s => s.conversation_history
  | none => []

/-- The session either does not exist yet or its processing flag is clear. -/
def sessionIdle (r : Registry) (sid : String) : Prop :=
  ∀ s, lookupSession r sid = some s → s.is_processing = false

/-- The history alternates a user entry then an assistant entry. -/
def alternatingUA : List Message → Bool
  | [] => true
  | u :: a :: rest => u.role == "user" && a.role == "assistant" && alternatingUA rest
  | _ => false

end VoiceServer

namespace Backend

/-- Outcome of the Anthropic `client.messages.create` call. -/
inductive ClaudeOutcome where
  | success (text : String)
  | failure (err : String)
deriving DecidableEq, Repr

/-- `get_claude_response_text` of server.py: a missing `ANTHROPIC_API_KEY`
returns the "temporarily unavailable" string; any exception from the API call
is caught and replaced by the canned apology naming Maurice's address. -/
def get_claude_response_text (anthropic_api_key : Option String)
    (o : ClaudeOutcome) : String :=
  match anthropic_api_key with
  | none => "AI service temporarily unavailable. Please try again later."
  | some _ =>
      match o with
      | .success t => t
      | .failure _ =>
          "I apologize, but I'm having trouble connecting to the AI service right now. Please try again in a moment, or contact Maurice directly at mauricerashad@gmail.com."

/-- Python `str.strip` on a character list: whitespace dropped from both
ends. -/
def pyStrip (l : List Char) : List Char :=
  ((l.dropWhile Char.isWhitespace).reverse.dropWhile Char.isWhitespace).reverse

/-- Python `str.strip` on a string. -/
def pyStripS (s : String) : String := ⟨pyStrip s.data⟩

/-- Python `s[:n]`: the first `n` code points. -/
def pyTake (n : Nat) (s : String) : String := ⟨s.data.take n⟩

/-- Outcome of the Deepgram `/v1/listen` call in
`process_audio_with_deepgram`: either the base64 decode or the HTTP request
raised, or a response arrived with a status code and (for 200 responses)
`alternatives[0].get("transcript")`. -/
inductive DeepgramResult where
  | exn (e : String)
  | response (status : Nat) (transcript : Option String)
deriving DecidableEq, Repr

/-- `process_audio_with_deepgram` of server.py: a missing key, a raised
exception, a non-200 status, a missing alternative, or an empty transcript
all yield `""`; a non-empty transcript is returned stripped. -/
def process_audio_with_deepgram (deepgram_api_key : Option String)
    (res : DeepgramResult) : String :=
  match deepgram_api_key with
  | none => ""
  | some _ =>
      match res with
      | .exn _ => ""
      | .response status transcript =>
          if status = 200 then
            match transcript with
            | some t => if t ≠ "" then pyStripS t else ""
            | none => ""
          else ""

/-- A failed transcription attempt: the Deepgram call raised (transport
error or base64 decode failure) or returned a non-200 status. -/
def deepgramFailed : DeepgramResult → Bool
  | .exn _ => true
  | .response status _ => status != 200

/-- One message sent back over the WebSocket:
`{"type": ..., "content": ...}`. -/
structure WsMessage where
  type : String
  content : String
deriving DecidableEq, Repr

/-- The `"audio"` branch of `websocket_endpoint`'s receive loop: empty
`data` sends nothing; an empty transcript sends the `[listening...]` prompt;
otherwise the transcript, the final transcript, and the Claude response are
sent in order. -/
def websocket_handle_audio (deepgram_api_key anthropic_api_key : Option String)
    (audio_data : String) (res : DeepgramResult) (o : ClaudeOutcome) :
    List WsMessage :=
  if audio_data ≠ "" then
    let transcript := process_audio_with_deepgram deepgram_api_key res
    if transcript ≠ "" then
      [{ type := "transcript", content := transcript },
       { type := "final_transcript", content := transcript },
       { type := "response", content := get_claude_response_text anthropic_api_key o }]
    else
      [{ type := "transcript", content := "[listening...]" }]
  else []

/-- An HTTP response of the chat endpoint: status code and the payload
(the reply text, or the error detail). -/
structure HttpResponse where
  status : Nat
  body : String
deriving DecidableEq, Repr

/-- `POST /api/chat` (`text_chat`) of server.py. `body_message = none`
models `request.json()` raising (caught by the outer `except` as a 500);
an empty message is a 400; a missing key is a 500; an exception from the
Anthropic call is caught by the outer `except` and becomes a 500. -/
def text_chat (body_message : Option String)
    (anthropic_api_key : Option String) (o : ClaudeOutcome) : HttpResponse :=
  match body_message with
  | none => { status := 500, body := "Internal server error" }
  | some user_message =>
      if user_message = "" then
        { status := 400, body := "Message is required" }
      else
        match anthropic_api_key with
        | none => { status := 500, body := "Anthropic API key not configured" }
        | some _ =>
            match o with
            | .success t => { status := 200, body := t }
            | .failure _ => { status := 500, body := "Internal server error" }

/-- `GET /health` of server.py: static payload, no session count. -/
def health_check : Nat × List (String × JsonVal) :=
  (200,
   [("status", .str "healthy"),
    ("service", .str "maurice-chat-backend"),
    ("timestamp", .str "2024-07-11")])

/-- ASCII case-insensitive literal test (the effect of `re.IGNORECASE` on
the literal parts of the script regex): does `l` begin with `pat`, where
`pat` is given in lowercase? -/
def ciMatches (pat l : List Char) : Bool :=
  (l.take pat.length).map Char.toLower == pat

/-- A word character, for the `\b` boundary after `<script` (Python `\w`,
modelled on its ASCII range). -/
def isWordChar (c : Char) : Bool := c.isAlphanum || c == '_'

theorem ciMatches_length {pat l : List Char} (h : ciMatches pat l = true) :
    pat.length ≤ l.length := by
  have h' : (l.take pat.length).map Char.toLower = pat := eq_of_beq h
  have := congrArg List.length h'
  simp only [List.length_map, List.length_take] at this
  omega

/-- The closing literal `</script>` of the script-stripping regex. -/
def closeScriptTag : List Char := "</script>".data

/-- The opening literal `<script` of the script-stripping regex. -/
def openScriptTag : List Char := "<script".data

/-- The tail `(?:(?!<\/script>)<[^<]*)*<\/script>` of the script regex,
entered positioned at a `<` (or at the end): either `</script>` matches here
(consume it, succeed, return the rest), or one `(?!<\/script>)<[^<]*` group
iteration is consumed; at a position that is neither, the match fails. -/
def findScriptEnd : List Char → Option (List Char)
  | [] => none
  | c :: rest =>
      if ciMatches closeScriptTag (c :: rest) then some ((c :: rest).drop 9)
      else if c = '<' then findScriptEnd (rest.dropWhile (fun x => x != '<'))
      else none
termination_by l => l.length
decreasing_by
  have hle : (rest.dropWhile (fun x => x != '<')).length ≤ rest.length :=
    (List.dropWhile_suffix _).sublist.length_le
  simp only [List.length_cons]
  omega

theorem findScriptEnd_length :
    ∀ (l res : List Char), findScriptEnd l = some res → res.length < l.length := by
  intro l
  induction l using findScriptEnd.induct with
  | case1 => intro res h; simp [findScriptEnd] at h
  | case2 c rest hci =>
      intro res h
      rw [findScriptEnd] at h
      simp only [if_pos hci] at h
      cases h
      have h9 : closeScriptTag.length ≤ (c :: rest).length := ciMatches_length hci
      simp only [closeScriptTag] at h9
      simp only [List.length_drop]
      simp at h9 ⊢
      omega
  | case3 rest hci ih =>
      intro res h
      rw [findScriptEnd] at h
      simp only [if_neg hci, if_pos rfl] at h
      have hlt := ih res h
      have hle : (rest.dropWhile (fun x => x != '<')).length ≤ rest.length :=
        (List.dropWhile_suffix _).sublist.length_le
      simp only [List.length_cons] at *
      omega
  | case4 c rest hci hc =>
      intro res h
      rw [findScriptEnd] at h
      simp only [if_neg hci, if_neg hc] at h
      cases h

/-- One attempt of the whole script-element regex
`<script\b[^<]*(?:(?!<\/script>)<[^<]*)*<\/script>` (IGNORECASE) at the head
of `l`: `<script`, the `\b` boundary, the `[^<]*` run, then the closing
search. Returns what remains after the matched script element. -/
def matchScriptAt (l : List Char) : Option (List Char) :=
  if ciMatches openScriptTag l then
    let rest := l.drop 7
    let boundaryOk :=
      match rest with
      | [] => true
      | c :: _ => !(isWordChar c)
    if boundaryOk then findScriptEnd (rest.dropWhile (fun x => x != '<'))
    else none
  else none

theorem matchScriptAt_length {l after : List Char}
    (h : matchScriptAt l = some after) : after.length < l.length := by
  unfold matchScriptAt at h
  split at h
  · rename_i hci
    dsimp only at h
    split at h
    · have h7 : openScriptTag.length ≤ l.length := ciMatches_length hci
      simp only [openScriptTag] at h7
      have hlt := findScriptEnd_length _ _ h
      have hle : ((l.drop 7).dropWhile (fun x => x != '<')).length ≤ (l.drop 7).length :=
        (List.dropWhile_suffix _).sublist.length_le
      simp only [List.length_drop] at hlt hle
      simp at h7
      omega
    · cases h
  · cases h

/-- `re.sub` with the script-element regex and an empty replacement: scan
left to right, skipping each match, copying every unmatched character. -/
def removeScripts : List Char → List Char
  | [] => []
  | c :: rest =>
      match h : matchScriptAt (c :: rest) with
      | some after => removeScripts after
      | none => c :: removeScripts rest
termination_by l => l.length
decreasing_by
  · exact matchScriptAt_length h
  · simp only [List.length_cons]; omega

/-- `re.sub(r'<[^>]*>', '', text)`: at a `<`, the (greedy) `[^>]*` runs to
the first following `>`, so a match consumes through that `>`; a `<` with no
later `>` matches nothing and is copied, as is every other character. -/
def removeTags : List Char → List Char
  | [] => []
  | c :: rest =>
      if c = '<' ∧ rest.dropWhile (fun x => x != '>') ≠ [] then
        removeTags (rest.dropWhile (fun x => x != '>')).tail
      else
        c :: removeTags rest
termination_by l => l.length
decreasing_by
  · have hle : (rest.dropWhile (fun x => x != '>')).length ≤ rest.length :=
      (List.dropWhile_suffix _).sublist.length_le
    have ht := List.length_tail (rest.dropWhile (fun x => x != '>'))
    simp only [List.length_cons]
    omega
  · simp only [List.length_cons]; omega

/-- `sanitize_html` of server.py: strip script elements, strip all remaining
tags, then `str.strip()`. -/
def sanitize_html (text : String) : String :=
  ⟨pyStrip (removeTags (removeScripts text.data))⟩

/-- The sanitised values `send_contact_email` embeds into the notification
and confirmation email templates. -/
def contact_email_fields (name service message : String) :
    String × String × String :=
  (sanitize_html name, sanitize_html service, sanitize_html message)

/-- No executable HTML markup: no `<` is ever followed by a `>` (so no
complete element at all), and in particular no `<script>` occurs. -/
def noExecutableMarkup (s : String) : Prop :=
  (¬ List.Sublist ['<', '>'] s.data) ∧
  ∀ pre post, s.data ≠ pre ++ "<script>".data ++ post

/-- The `name`/`message` validator of `ContactForm`: reject an empty or
whitespace-only value, else strip and truncate to 1000 code points
(`return v.strip()[:1000]`). -/
def validate_required_fields (v : String) : Except String String :=
  if v = "" ∨ pyStripS v = "" then .error "This field is required"
  else .ok (pyTake 1000 (pyStripS v))

/-- The `service` validator of `ContactForm`:
`v.strip()[:100] if v else "General Inquiry"`. -/
def validate_service (v : String) : String :=
  if v ≠ "" then pyTake 100 (pyStripS v) else "General Inquiry"

end Backend


/-! ## Helper lemmas -/

namespace Backend

theorem removeTags_sublist : ∀ l : List Char, List.Sublist (removeTags l) l := by
  intro l
  induction l using removeTags.induct with
  | case1 => simp [removeTags]
  | case2 c rest hcond ih =>
      rw [removeTags]
      simp only [if_pos hcond]
      exact ((ih.trans (List.tail_sublist _)).trans
        (List.dropWhile_suffix _).sublist).trans (List.sublist_cons_self c rest)
  | case3 c rest hcond ih =>
      rw [removeTags]
      simp only [if_neg hcond]
      exact ih.cons₂ c

theorem removeTags_no_tag : ∀ l : List Char, ¬ List.Sublist ['<', '>'] (removeTags l) := by
  intro l
  induction l using removeTags.induct with
  | case1 => rw [removeTags]; intro hs; simp at hs
  | case2 c rest hcond ih => rw [removeTags]; simp only [if_pos hcond]; exact ih
  | case3 c rest hcond ih =>
      rw [removeTags]
      simp only [if_neg hcond]
      intro hs
      cases hs with
      | cons _ h => exact ih h
      | cons₂ _ h =>
          have hd : rest.dropWhile (fun x => x != '>') = [] := by
            by_contra hne
            exact hcond ⟨rfl, hne⟩
          have hmem : '>' ∈ removeTags rest := List.singleton_sublist.mp h
          have hmem' : '>' ∈ rest := (removeTags_sublist rest).subset hmem
          have := List.dropWhile_eq_nil_iff.mp hd '>' hmem'
          simp at this

theorem pyStrip_sublist (l : List Char) : List.Sublist (pyStrip l) l := by
  unfold pyStrip
  have h1 : List.Sublist (l.dropWhile Char.isWhitespace) l := (List.dropWhile_suffix _).sublist
  have h2 : List.Sublist
      ((l.dropWhile Char.isWhitespace).reverse.dropWhile Char.isWhitespace)
      (l.dropWhile Char.isWhitespace).reverse := (List.dropWhile_suffix _).sublist
  have h3 := h2.reverse
  simp only [List.reverse_reverse] at h3
  exact h3.trans h1

theorem sanitize_html_markup_free (s : String) : noExecutableMarkup (sanitize_html s) := by
  have hfree : ¬ List.Sublist ['<', '>'] (sanitize_html s).data := by
    intro hs
    have h1 : List.Sublist (sanitize_html s).data (removeTags (removeScripts s.data)) :=
      pyStrip_sublist _
    exact removeTags_no_tag _ (hs.trans h1)
  refine ⟨hfree, ?_⟩
  intro pre post heq
  apply hfree
  rw [heq]
  have h1 : List.Sublist ['<', '>'] "<script>".data := by decide
  have h2 : List.Sublist "<script>".data (pre ++ "<script>".data ++ post) := by
    rw [List.append_assoc]
    exact (List.sublist_append_left _ _).trans (List.sublist_append_right _ _)
  exact h1.trans h2

end Backend

namespace VoiceServer

theorem lookup_cons (k : String) (v : Session) (rest : Registry) (sid : String) :
    lookupSession ((k, v) :: rest) sid
      = if k = sid then some v else lookupSession rest sid := by
  by_cases h : k = sid <;> simp [lookupSession, List.find?, h]

theorem lookup_set_self (r : Registry) (sid : String) (s : Session) :
    lookupSession (setSession r sid s) sid = some s := by
  induction r with
  | nil => simp [setSession, lookup_cons]
  | cons p rest ih =>
      obtain ⟨k, v⟩ := p
      by_cases h : k = sid
      · simp [setSession, h, lookup_cons]
      · simp [setSession, h, lookup_cons, ih]

theorem lookup_set_ne (r : Registry) (sid k' : String) (s : Session) (h : k' ≠ sid) :
    lookupSession (setSession r sid s) k' = lookupSession r k' := by
  have hne : ¬ sid = k' := fun hh => h hh.symm
  induction r with
  | nil =>
      show lookupSession [(sid, s)] k' = lookupSession [] k'
      rw [lookup_cons, if_neg hne]
  | cons p rest ih =>
      obtain ⟨k, v⟩ := p
      by_cases hk : k = sid
      · subst hk
        have hset : setSession ((k, v) :: rest) k s = (k, s) :: rest := by
          simp [setSession]
        rw [hset, lookup_cons, lookup_cons, if_neg hne, if_neg hne]
      · have hset : setSession ((k, v) :: rest) sid s = (k, v) :: setSession rest sid s := by
          simp [setSession, hk]
        rw [hset, lookup_cons, lookup_cons, ih]

theorem lookup_not_mem (r : Registry) (sid : String)
    (h : sid ∉ r.map Prod.fst) : lookupSession r sid = none := by
  induction r with
  | nil => rfl
  | cons p rest ih =>
      obtain ⟨k, v⟩ := p
      rw [List.map_cons, List.mem_cons] at h
      push_neg at h
      rw [lookup_cons, if_neg (fun hh => h.1 hh.symm)]
      exact ih h.2

theorem lookup_append_not_found (r : Registry) (sid : String) (s : Session)
    (h : lookupSession r sid = none) :
    lookupSession (r ++ [(sid, s)]) sid = some s := by
  induction r with
  | nil => simp [lookup_cons]
  | cons p rest ih =>
      obtain ⟨k, v⟩ := p
      rw [lookup_cons] at h
      by_cases hk : k = sid
      · rw [if_pos hk] at h; cases h
      · rw [if_neg hk] at h
        rw [List.cons_append, lookup_cons, if_neg hk]
        exact ih h

theorem lookup_append_ne (r : Registry) (sid k' : String) (s : Session) (h : k' ≠ sid) :
    lookupSession (r ++ [(sid, s)]) k' = lookupSession r k' := by
  have hne : ¬ sid = k' := fun hh => h hh.symm
  induction r with
  | nil =>
      show lookupSession [(sid, s)] k' = lookupSession [] k'
      rw [lookup_cons, if_neg hne]
  | cons p rest ih =>
      obtain ⟨k, v⟩ := p
      rw [List.cons_append, lookup_cons, lookup_cons, ih]

theorem lookup_erase_ne (r : Registry) (sid k' : String) (h : k' ≠ sid) :
    lookupSession (eraseSession r sid) k' = lookupSession r k' := by
  induction r with
  | nil => rfl
  | cons p rest ih =>
      obtain ⟨k, v⟩ := p
      by_cases hk : k = sid
      · subst hk
        have herase : eraseSession ((k, v) :: rest) k = rest := by
          simp [eraseSession]
        rw [herase, lookup_cons, if_neg (fun hh => h hh.symm)]
      · have herase : eraseSession ((k, v) :: rest) sid = (k, v) :: eraseSession rest sid := by
          simp [eraseSession, hk]
        rw [herase, lookup_cons, lookup_cons, ih]

theorem lookup_erase_self (r : Registry) (sid : String)
    (hnd : (r.map Prod.fst).Nodup) :
    lookupSession (eraseSession r sid) sid = none := by
  induction r with
  | nil => rfl
  | cons p rest ih =>
      obtain ⟨k, v⟩ := p
      rw [List.map_cons, List.nodup_cons] at hnd
      by_cases hk : k = sid
      · subst hk
        have herase : eraseSession ((k, v) :: rest) k = rest := by
          simp [eraseSession]
        rw [herase]
        exact lookup_not_mem rest k hnd.1
      · have herase : eraseSession ((k, v) :: rest) sid = (k, v) :: eraseSession rest sid := by
          simp [eraseSession, hk]
        rw [herase, lookup_cons, if_neg hk]
        exact ih hnd.2

theorem get_or_create_of_found {r : Registry} {sid : String} {s : Session} (now : Nat)
    (h : lookupSession r sid = some s) :
    get_or_create_session r sid now = (r, s) := by
  simp [get_or_create_session, h]

theorem get_or_create_of_not_found {r : Registry} {sid : String} (now : Nat)
    (h : lookupSession r sid = none) :
    get_or_create_session r sid now =
      (r ++ [(sid, { id := sid, created_at := now,
                     conversation_history := [], is_processing := false })],
       { id := sid, created_at := now,
         conversation_history := [], is_processing := false }) := by
  simp [get_or_create_session, h]

theorem clearProcessing_lookup {r : Registry} {sid : String} {s : Session}
    (h : lookupSession r sid = some s) :
    lookupSession (clearProcessing r sid) sid
      = some { s with is_processing := false } := by
  unfold clearProcessing
  rw [h]
  exact lookup_set_self ..

theorem appendHistory_lookup {r : Registry} {sid : String} {s : Session}
    (msgs : List Message) (h : lookupSession r sid = some s) :
    lookupSession (appendHistory r sid msgs) sid
      = some { s with conversation_history := s.conversation_history ++ msgs } := by
  unfold appendHistory
  rw [h]
  exact lookup_set_self ..

end VoiceServer

namespace VoiceServer

/-- C1 (amended): for the voice handler `send_voice_message`, a request for
a session whose processing flag is already set is rejected with
HTTPException 429 ("Already processing a message") and the registry is left
unchanged. The text handler `send_text_message` performs no such check (see
the counterexample), so the original "voice and text alike" claim fails. -/
theorem C1_voice_busy_rejected (r : Registry) (msg : AudioMessage)
    (o : VoiceOracle) (now : Nat) (s : Session)
    (h : lookupSession r msg.session_id = some s)
    (hp : s.is_processing = true) :
    send_voice_message r msg o now
      = (r, .httpError 429 "Already processing a message") := by
  unfold send_voice_message
  rw [get_or_create_of_found now h]
  simp [hp]

/-- C1 counterexample: `send_text_message` on a session whose processing
flag is set succeeds with a normal response instead of rejecting with 429,
refuting the claim that every message-sending operation is guarded. -/
theorem C1_counterexample :
    (send_text_message
      [("s", { id := "s", created_at := 0, conversation_history := [],
               is_processing := true })]
      { message := "hi", session_id := "s" } .succeeds 0).2
      = .ok { response := "Thank you for saying: hi. How else can I help you today?",
              session_id := "s", timestamp := 0 } ∧
    (send_text_message
      [("s", { id := "s", created_at := 0, conversation_history := [],
               is_processing := true })]
      { message := "hi", session_id := "s" } .succeeds 0).2
      ≠ .httpError 429 "Already processing a message" := by
  constructor
  · rfl
  · decide

/-- C2: whenever `send_voice_message` passes the busy check (and so sets
the session's processing flag), the flag is clear again in the resulting
registry on every path: success, or an exception raised by transcription,
reply generation, or synthesis (the `finally:` block). -/
theorem C2_flag_cleared (r : Registry) (msg : AudioMessage)
    (o : VoiceOracle) (now : Nat)
    (hidle : ∀ s, lookupSession r msg.session_id = some s → s.is_processing = false) :
    ∃ s', lookupSession (send_voice_message r msg o now).1 msg.session_id = some s' ∧
      s'.is_processing = false := by
  unfold send_voice_message
  rcases hl : lookupSession r msg.session_id with _ | s
  · rw [get_or_create_of_not_found now hl]
    have hset := lookup_set_self (r ++ [(msg.session_id,
      { id := msg.session_id, created_at := now,
        conversation_history := [], is_processing := false })]) msg.session_id
    cases o.stt <;> cases o.llm <;> cases o.tts <;>
      simp [process_audio_to_text, generate_ai_response, text_to_speech,
        clearProcessing_lookup (hset _), lookup_set_self,
        appendHistory_lookup _ (hset _), clearProcessing_lookup,
        appendHistory_lookup]
  · rw [get_or_create_of_found now hl]
    have hp := hidle s hl
    have hset := lookup_set_self r msg.session_id
    cases o.stt <;> cases o.llm <;> cases o.tts <;>
      simp [hp, process_audio_to_text, generate_ai_response, text_to_speech,
        clearProcessing_lookup (hset _), lookup_set_self,
        appendHistory_lookup _ (hset _), clearProcessing_lookup,
        appendHistory_lookup]

end VoiceServer

namespace VoiceServer

theorem process_audio_ok {o : StepBehavior} (h : noRaise o = true) :
    ∃ t, process_audio_to_text o = .ok t := by
  cases o <;> simp [noRaise, process_audio_to_text] at h ⊢

theorem generate_ok {o : StepBehavior} (h : noRaise o = true) (m : String) :
    ∃ t, generate_ai_response o m = .ok t := by
  cases o <;> simp [noRaise, generate_ai_response] at h ⊢

theorem tts_ok {o : StepBehavior} (h : noRaise o = true) :
    ∃ u, text_to_speech o = .ok u := by
  cases o <;> simp [noRaise, text_to_speech] at h ⊢

theorem sessionHistory_eq {r : Registry} {sid : String} {s : Session}
    (h : lookupSession r sid = some s) :
    sessionHistory r sid = s.conversation_history := by
  unfold sessionHistory
  rw [h]

theorem stepExchange_completes (r : Registry) (sid : String) (spec : ExchangeSpec)
    (now : Nat) (hidle : sessionIdle r sid) (hok : specCompletes spec = true) :
    (∃ u a, sessionHistory (stepExchange r sid spec now) sid
        = sessionHistory r sid ++
          [{ role := "user", content := u }, { role := "assistant", content := a }]) ∧
    sessionIdle (stepExchange r sid spec now) sid := by
  obtain ⟨r1, s0, hg, hl1, hp0, hh0⟩ : ∃ r1 s0,
      get_or_create_session r sid now = (r1, s0) ∧
      lookupSession r1 sid = some s0 ∧
      s0.is_processing = false ∧
      s0.conversation_history = sessionHistory r sid := by
    rcases hl : lookupSession r sid with _ | s0
    · exact ⟨_, _, get_or_create_of_not_found now hl,
        lookup_append_not_found r sid _ hl, rfl, by simp [sessionHistory, hl]⟩
    · exact ⟨_, _, get_or_create_of_found now hl, hl, hidle _ hl,
        by simp [sessionHistory, hl]⟩
  cases spec with
  | voice audio format o =>
      simp only [specCompletes, Bool.and_eq_true] at hok
      obtain ⟨⟨h1, h2⟩, h3⟩ := hok
      obtain ⟨t, hstt⟩ := process_audio_ok h1
      unfold stepExchange send_voice_message
      simp only [hg]
      obtain ⟨a, hllm⟩ := generate_ok h2 t
      obtain ⟨url, htts⟩ := tts_ok h3
      rw [if_neg (by simp [hp0])]
      rw [hstt]
      dsimp only
      rw [hllm]
      dsimp only
      rw [htts]
      dsimp only
      have hl2 := lookup_set_self r1 sid { s0 with is_processing := true }
      have hl3 := appendHistory_lookup
        [{ role := "user", content := t }, { role := "assistant", content := a }] hl2
      have hl4 := clearProcessing_lookup hl3
      refine ⟨⟨t, a, ?_⟩, ?_⟩
      · rw [sessionHistory_eq hl4, ← hh0]
      · intro s' h'
        rw [hl4] at h'
        cases h'
        rfl
  | text m o =>
      simp only [specCompletes] at hok
      obtain ⟨a, hllm⟩ := generate_ok hok m
      unfold stepExchange send_text_message
      simp only [hg]
      rw [hllm]
      have hl3 := appendHistory_lookup
        [{ role := "user", content := m }, { role := "assistant", content := a }] hl1
      refine ⟨⟨m, a, ?_⟩, ?_⟩
      · rw [sessionHistory_eq hl3, ← hh0]
      · intro s' h'
        rw [hl3] at h'
        cases h'
        exact hp0

theorem alternatingUA_append : ∀ (l : List Message) {u a : Message},
    u.role = "user" → a.role = "assistant" → alternatingUA l = true →
    alternatingUA (l ++ [u, a]) = true
  | [], u, a, hu, ha, _ => by simp [alternatingUA, hu, ha]
  | [x], _, _, _, _, h => by simp [alternatingUA] at h
  | x :: y :: rest, u, a, hu, ha, h => by
      simp only [alternatingUA, Bool.and_eq_true] at h
      simp only [List.cons_append, alternatingUA, Bool.and_eq_true]
      exact ⟨h.1, alternatingUA_append rest hu ha h.2⟩

theorem runExchanges_append (sid : String) (now : Nat) :
    ∀ (l1 l2 : List ExchangeSpec) (r : Registry),
      runExchanges r sid (l1 ++ l2) now
        = runExchanges (runExchanges r sid l1 now) sid l2 now
  | [], l2, r => rfl
  | spec :: rest, l2, r => by
      simp only [List.cons_append, runExchanges]
      exact runExchanges_append sid now rest l2 _

theorem runExchanges_spec (sid : String) (specs : List ExchangeSpec) :
    ∀ (r : Registry) (now : Nat),
      sessionIdle r sid →
      (∀ spec ∈ specs, specCompletes spec = true) →
      sessionIdle (runExchanges r sid specs now) sid ∧
      ∃ tail, sessionHistory (runExchanges r sid specs now) sid
          = sessionHistory r sid ++ tail ∧
        tail.length = 2 * specs.length ∧
        (alternatingUA (sessionHistory r sid) = true →
          alternatingUA (sessionHistory (runExchanges r sid specs now) sid) = true) := by
  induction specs with
  | nil =>
      intro r now hidle _
      refine ⟨hidle, [], ?_, ?_, ?_⟩
      · simp [runExchanges]
      · simp
      · intro h
        simpa [runExchanges] using h
  | cons spec rest ih =>
      intro r now hidle hall
      have hspec := hall spec (List.mem_cons_self spec rest)
      obtain ⟨⟨u, a, hstep⟩, hidle1⟩ := stepExchange_completes r sid spec now hidle hspec
      have hrest : ∀ s ∈ rest, specCompletes s = true :=
        fun s hs => hall s (List.mem_cons_of_mem spec hs)
      obtain ⟨hidle2, tail, htail, hlen, halt⟩ :=
        ih (stepExchange r sid spec now) now hidle1 hrest
      refine ⟨hidle2, [{ role := "user", content := u },
        { role := "assistant", content := a }] ++ tail, ?_, ?_, ?_⟩
      · simp only [runExchanges] at hidle2 ⊢
        rw [htail, hstep, List.append_assoc]
      · simp at hlen ⊢
        omega
      · intro halt0
        exact halt (hstep ▸ alternatingUA_append _ rfl rfl halt0)

end VoiceServer

namespace VoiceServer

/-- C3: starting from a session not yet in the registry, after a sequence
of N completed exchanges (voice or text, none raising) the session's history
has exactly 2N entries alternating user then assistant in request order, and
the history after any prefix of the requests is a prefix of the final
history (append-only). -/
theorem C3_history_after_n_exchanges (r : Registry) (sid : String)
    (specs : List ExchangeSpec) (now : Nat)
    (h0 : lookupSession r sid = none)
    (hall : ∀ spec ∈ specs, specCompletes spec = true) :
    (sessionHistory (runExchanges r sid specs now) sid).length = 2 * specs.length ∧
    alternatingUA (sessionHistory (runExchanges r sid specs now) sid) = true ∧
    ∀ n, ∃ tail, sessionHistory (runExchanges r sid specs now) sid
        = sessionHistory (runExchanges r sid (specs.take n) now) sid ++ tail := by
  have hidle : sessionIdle r sid := by
    intro s h
    rw [h0] at h
    cases h
  have hh : sessionHistory r sid = [] := by simp [sessionHistory, h0]
  obtain ⟨hidle2, tail, htail, hlen, halt⟩ := runExchanges_spec sid specs r now hidle hall
  refine ⟨?_, ?_, ?_⟩
  · rw [htail, hh]
    simpa using hlen
  · exact halt (by rw [hh]; rfl)
  · intro n
    have hsplit : runExchanges r sid specs now
        = runExchanges (runExchanges r sid (specs.take n) now) sid (specs.drop n) now := by
      rw [← runExchanges_append, List.take_append_drop]
    obtain ⟨hidleT, tailT, htailT, _, _⟩ :=
      runExchanges_spec sid (specs.take n) r now hidle
        (fun spec hs => hall spec (List.take_subset n specs hs))
    obtain ⟨_, tailD, htailD, _, _⟩ :=
      runExchanges_spec sid (specs.drop n) (runExchanges r sid (specs.take n) now) now hidleT
        (fun spec hs => hall spec (List.drop_subset n specs hs))
    rw [hsplit]
    exact ⟨tailD, htailD⟩

end VoiceServer

namespace Backend

/-- C4 counterexample: on a text-generation failure the HTTP `/api/chat`
endpoint returns status 500 ("Internal server error"), not 200 with the
canned fallback, refuting the claim that chat endpoints never return 5xx. -/
theorem C4_counterexample :
    text_chat (some "Hello") (some "key") (.failure "boom")
      = { status := 500, body := "Internal server error" } ∧
    (text_chat (some "Hello") (some "key") (.failure "boom")).status ≠ 200 := by
  constructor
  · rfl
  · decide

/-- C4 (amended): an exception from the text-generation backend in the
paths using `get_claude_response_text` (WebSocket chat) yields the canned
fallback string containing the human contact address mauricerashad@gmail.com;
the HTTP `/api/chat` endpoint instead returns HTTP 500 on such a failure, and
a missing credential yields a "temporarily unavailable" string without the
address. -/
theorem C4_generation_failure_paths (k err m : String) (hm : m ≠ "") :
    get_claude_response_text (some k) (.failure err)
      = "I apologize, but I'm having trouble connecting to the AI service right now. Please try again in a moment, or contact Maurice directly at mauricerashad@gmail.com." ∧
    (∃ pre post, get_claude_response_text (some k) (.failure err)
        = pre ++ "mauricerashad@gmail.com" ++ post) ∧
    text_chat (some m) (some k) (.failure err)
      = { status := 500, body := "Internal server error" } ∧
    get_claude_response_text none (.failure err)
      = "AI service temporarily unavailable. Please try again later." := by
  refine ⟨rfl,
    ⟨"I apologize, but I'm having trouble connecting to the AI service right now. Please try again in a moment, or contact Maurice directly at ",
     ".", by rfl⟩, ?_, rfl⟩
  simp [text_chat, hm]

theorem C4_witness :
    text_chat (some "Hi") (some "k") (.failure "x")
      = { status := 500, body := "Internal server error" } :=
  (C4_generation_failure_paths "k" "x" "Hi" (by decide)).2.2.1

/-- C5: on any failed transcription (raised transport/decode error or
non-200 upstream status), `process_audio_with_deepgram` returns the empty
transcript instead of propagating, and the WebSocket audio branch then sends
exactly the `[listening...]` prompt. -/
theorem C5_transcription_failure (dk ak : Option String) (res : DeepgramResult)
    (o : ClaudeOutcome) (audio : String)
    (hfail : deepgramFailed res = true) (haudio : audio ≠ "") :
    process_audio_with_deepgram dk res = "" ∧
    websocket_handle_audio dk ak audio res o
      = [{ type := "transcript", content := "[listening...]" }] := by
  have hp : process_audio_with_deepgram dk res = "" := by
    cases dk with
    | none => rfl
    | some key =>
        cases res with
        | exn e => rfl
        | response st tr =>
            simp only [deepgramFailed, bne_iff_ne, ne_eq] at hfail
            simp [process_audio_with_deepgram, hfail]
  refine ⟨hp, ?_⟩
  simp [websocket_handle_audio, haudio, hp]

theorem C5_witness :
    process_audio_with_deepgram (some "k") (.response 500 none) = "" ∧
    websocket_handle_audio (some "k") (some "a") "QUJD" (.response 500 none)
        (.success "hi")
      = [{ type := "transcript", content := "[listening...]" }] :=
  C5_transcription_failure (some "k") (some "a") (.response 500 none)
    (.success "hi") "QUJD" (by decide) (by decide)

/-- C6: the name, service and message values that `send_contact_email`
embeds into the email templates are HTML-sanitised: for every input string
the sanitised output never has a `<` followed by a `>` (so no complete HTML
element survives) and in particular contains no `<script>` occurrence. -/
theorem C6_contact_fields_sanitized (name service message : String) :
    noExecutableMarkup (contact_email_fields name service message).1 ∧
    noExecutableMarkup (contact_email_fields name service message).2.1 ∧
    noExecutableMarkup (contact_email_fields name service message).2.2 :=
  ⟨sanitize_html_markup_free name, sanitize_html_markup_free service,
   sanitize_html_markup_free message⟩

/-- C10: the ContactForm validators: a name/message that is empty or
whitespace-only is rejected with a validation error, otherwise it is
stripped and truncated to at most 1000 characters; the service field is
always at most 100 characters after validation, with "General Inquiry"
substituted when it is empty. -/
theorem C10_contact_form_validation (v : String) :
    (pyStripS v = "" →
       validate_required_fields v = .error "This field is required") ∧
    (pyStripS v ≠ "" →
       validate_required_fields v = .ok (pyTake 1000 (pyStripS v)) ∧
       (pyTake 1000 (pyStripS v)).data.length ≤ 1000) ∧
    (validate_service v).data.length ≤ 100 ∧
    (v = "" → validate_service v = "General Inquiry") := by
  refine ⟨?_, ?_, ?_, ?_⟩
  · intro h
    unfold validate_required_fields
    rw [if_pos (Or.inr h)]
  · intro h
    have hcond : ¬ (v = "" ∨ pyStripS v = "") := by
      rintro (hv | hs)
      · exact h (by rw [hv]; rfl)
      · exact h hs
    unfold validate_required_fields
    rw [if_neg hcond]
    refine ⟨rfl, ?_⟩
    simp [pyTake, List.length_take]
  · unfold validate_service
    by_cases hv : v = ""
    · simp [hv]
    · simp only [hv, ne_eq, not_false_iff, if_pos]
      simp [pyTake, List.length_take]
  · intro hv
    simp [validate_service, hv]

theorem C10_witness :
    validate_required_fields "   " = .error "This field is required" ∧
    validate_required_fields " hi " = .ok (pyTake 1000 (pyStripS " hi ")) ∧
    validate_service "" = "General Inquiry" :=
  ⟨(C10_contact_form_validation "   ").1 (by decide),
   ((C10_contact_form_validation " hi ").2.1 (by decide)).1,
   (C10_contact_form_validation "").2.2.2 rfl⟩

end Backend

/-- C7 counterexample: the `/health` endpoint of server.py returns 200
but its response carries no `active_sessions` field at all, refuting the
claim that GET /health always reports the session count. -/
theorem C7_counterexample :
    Backend.health_check.1 = 200 ∧
    ¬ ("active_sessions" ∈ Backend.health_check.2.map Prod.fst) := by
  constructor
  · rfl
  · decide

/-- C7 (amended): the voice server's `/health` returns 200 with an
`active_sessions` count equal to the number of sessions held in the registry
(a `Nat`, hence non-negative); the backend server's `/health` returns 200
with status fields but no session count. -/
theorem C7_health_endpoints (r : VoiceServer.Registry) :
    (VoiceServer.health_check r).1 = 200 ∧
    (VoiceServer.health_check r).2.lookup "active_sessions"
      = some (.num r.length) ∧
    Backend.health_check.1 = 200 ∧
    ¬ ("active_sessions" ∈ Backend.health_check.2.map Prod.fst) := by
  refine ⟨rfl, ?_, rfl, by decide⟩
  rfl

namespace VoiceServer

/-- C8: `DELETE /api/session/{id}` on a registry with distinct keys
removes exactly the named session (its id no longer resolves, every other id
resolves as before) and answers "Session deleted"; for an absent id the
registry is returned unchanged with "Session not found", never raising. -/
theorem C8_delete_session_frame (r : Registry) (sid : String)
    (hnd : (r.map Prod.fst).Nodup) :
    ((lookupSession r sid).isSome →
       (delete_session r sid).2 = "Session deleted" ∧
       lookupSession (delete_session r sid).1 sid = none ∧
       ∀ k, k ≠ sid →
         lookupSession (delete_session r sid).1 k = lookupSession r k) ∧
    (lookupSession r sid = none →
       delete_session r sid = (r, "Session not found")) := by
  constructor
  · intro hs
    unfold delete_session
    rw [if_pos hs]
    exact ⟨rfl, lookup_erase_self r sid hnd, fun k hk => lookup_erase_ne r sid k hk⟩
  · intro hn
    unfold delete_session
    rw [if_neg (by simp [hn])]

theorem C8_witness :
    (delete_session
      [("a", { id := "a", created_at := 1, conversation_history := [], is_processing := false }),
       ("b", { id := "b", created_at := 2, conversation_history := [], is_processing := false })]
      "a").2 = "Session deleted" ∧
    lookupSession (delete_session
      [("a", { id := "a", created_at := 1, conversation_history := [], is_processing := false }),
       ("b", { id := "b", created_at := 2, conversation_history := [], is_processing := false })]
      "a").1 "a" = none ∧
    lookupSession (delete_session
      [("a", { id := "a", created_at := 1, conversation_history := [], is_processing := false }),
       ("b", { id := "b", created_at := 2, conversation_history := [], is_processing := false })]
      "a").1 "b"
      = lookupSession
      [("a", { id := "a", created_at := 1, conversation_history := [], is_processing := false }),
       ("b", { id := "b", created_at := 2, conversation_history := [], is_processing := false })] "b" ∧
    delete_session
      [("a", { id := "a", created_at := 1, conversation_history := [], is_processing := false }),
       ("b", { id := "b", created_at := 2, conversation_history := [], is_processing := false })]
      "c"
      = ([("a", { id := "a", created_at := 1, conversation_history := [], is_processing := false }),
          ("b", { id := "b", created_at := 2, conversation_history := [], is_processing := false })],
         "Session not found") := by
  have h1 := (C8_delete_session_frame
    [("a", { id := "a", created_at := 1, conversation_history := [], is_processing := false }),
     ("b", { id := "b", created_at := 2, conversation_history := [], is_processing := false })]
    "a" (by decide)).1 (by decide)
  have h2 := (C8_delete_session_frame
    [("a", { id := "a", created_at := 1, conversation_history := [], is_processing := false }),
     ("b", { id := "b", created_at := 2, conversation_history := [], is_processing := false })]
    "c" (by decide)).2 (by decide)
  exact ⟨h1.1, h1.2.1, h1.2.2 "b" (by decide), h2⟩

/-- C9: `get_or_create_session` is a mutating read: an unknown id gets a
fresh session (empty history, processing flag clear, the given timestamp)
appended to the registry and subsequently resolvable, while a known id
returns the existing session with the registry unchanged; `get_session`
(GET /api/session/{id}) goes through it and mutates the registry the same
way. -/
theorem C9_get_or_create_spec (r : Registry) (sid : String) (now : Nat) :
    (lookupSession r sid = none →
       get_or_create_session r sid now
         = (r ++ [(sid, { id := sid, created_at := now,
                          conversation_history := [], is_processing := false })],
            { id := sid, created_at := now,
              conversation_history := [], is_processing := false }) ∧
       lookupSession (get_or_create_session r sid now).1 sid
         = some { id := sid, created_at := now,
                  conversation_history := [], is_processing := false } ∧
       (get_session r sid now).1 = (get_or_create_session r sid now).1) ∧
    (∀ s, lookupSession r sid = some s →
       get_or_create_session r sid now = (r, s) ∧
       get_session r sid now
         = (r, { session_id := sid, created_at := s.created_at,
                 message_count := s.conversation_history.length,
                 is_processing := s.is_processing })) := by
  constructor
  · intro h
    refine ⟨get_or_create_of_not_found now h, ?_, rfl⟩
    rw [get_or_create_of_not_found now h]
    exact lookup_append_not_found r sid _ h
  · intro s h
    refine ⟨get_or_create_of_found now h, ?_⟩
    unfold get_session
    rw [get_or_create_of_found now h]

theorem C9_witness :
    lookupSession (get_or_create_session [] "s" 5).1 "s"
      = some { id := "s", created_at := 5,
               conversation_history := [], is_processing := false } ∧
    get_or_create_session
      [("s", { id := "s", created_at := 1, conversation_history := [], is_processing := false })]
      "s" 7
      = ([("s", { id := "s", created_at := 1, conversation_history := [], is_processing := false })],
         { id := "s", created_at := 1, conversation_history := [], is_processing := false }) :=
  ⟨((C9_get_or_create_spec [] "s" 5).1 (by decide)).2.1,
   ((C9_get_or_create_spec
      [("s", { id := "s", created_at := 1, conversation_history := [], is_processing := false })]
      "s" 7).2
      { id := "s", created_at := 1, conversation_history := [], is_processing := false }
      (by decide)).1⟩

theorem C1_witness :
    send_voice_message
      [("s", { id := "s", created_at := 0, conversation_history := [], is_processing := true })]
      { audio_data := "QUJD", session_id := "s", format := "webm" }
      { stt := .succeeds, llm := .succeeds, tts := .succeeds } 0
      = ([("s", { id := "s", created_at := 0, conversation_history := [], is_processing := true })],
         .httpError 429 "Already processing a message") :=
  C1_voice_busy_rejected _ _ _ _
    { id := "s", created_at := 0, conversation_history := [], is_processing := true }
    (by decide) rfl

theorem C2_witness :
    ∃ s', lookupSession (send_voice_message []
      { audio_data := "QUJD", session_id := "s", format := "webm" }
      { stt := .raises "boom", llm := .succeeds, tts := .succeeds } 0).1 "s"
        = some s' ∧ s'.is_processing = false :=
  C2_flag_cleared []
    { audio_data := "QUJD", session_id := "s", format := "webm" }
    { stt := .raises "boom", llm := .succeeds, tts := .succeeds } 0
    (by intro s h; simp [lookupSession] at h)

theorem C3_witness :
    (sessionHistory (runExchanges [] "s"
        [.text "hi" .succeeds,
         .voice "QUJD" "webm" { stt := .succeeds, llm := .innerError "x", tts := .succeeds }]
        0) "s").length = 2 * 2 ∧
    alternatingUA (sessionHistory (runExchanges [] "s"
        [.text "hi" .succeeds,
         .voice "QUJD" "webm" { stt := .succeeds, llm := .innerError "x", tts := .succeeds }]
        0) "s") = true := by
  have h := C3_history_after_n_exchanges [] "s"
    [.text "hi" .succeeds,
     .voice "QUJD" "webm" { stt := .succeeds, llm := .innerError "x", tts := .succeeds }]
    0 rfl (by decide)
  exact ⟨h.1, h.2.1⟩

end VoiceServer
